import Mathlib

/-!
Verification development for the driver-location-and-matching system.

The Go sources are shallowly embedded in Lean:
* `float64` scalars appearing in record fields and request payloads are
  modelled as `ℚ` (exact values), while the trigonometric distance
  computation is modelled over `ℝ`;
* fallible Go calls returning `(T, error)` are modelled as `Except String T`;
* the application service's side-effecting calls against its repository and
  cache interfaces are modelled by oracle functions plus an explicit event
  trace recording each call in program order.
-/

namespace DLS

/-- Embeds `domain.Point` (the-driver-location-service/internal/domain/driver.go):
a GeoJSON point with a `Type` tag and a raw coordinate list. -/
structure Point where
  type : String
  coordinates : List ℚ
deriving DecidableEq

/-- Embeds `domain.NewPoint`: builds a `Point` with coordinates in
`[longitude, latitude]` order. -/
def NewPoint (longitude latitude : ℚ) : Point :=
  { type := "Point", coordinates := [longitude, latitude] }

/-- Embeds `Point.Longitude`, which reads `Coordinates[0]` with no bounds
check; the possible out-of-bounds read of the Go index expression is made
explicit with `Option` (`none` models the out-of-bounds panic). -/
def Point.longitudeOpt (p : Point) : Option ℚ :=
  p.coordinates[0]?

/-- Embeds `Point.Latitude`, which reads `Coordinates[1]` with no bounds
check; `none` models the out-of-bounds panic. -/
def Point.latitudeOpt (p : Point) : Option ℚ :=
  p.coordinates[1]?

/-- Total variant of `Point.Longitude`, used at call sites that are only
reached after the `len=2` validation has run (the panic branch is
unreachable there). -/
def Point.longitudeVal (p : Point) : ℚ :=
  p.coordinates.getD 0 0

/-- Total variant of `Point.Latitude`, guarded by the `len=2` validation. -/
def Point.latitudeVal (p : Point) : ℚ :=
  p.coordinates.getD 1 0

/-- Embeds `domain.Driver`. Timestamps are irrelevant to every claim and
are modelled as naturals. -/
structure Driver where
  id : String
  location : Point
  createdAt : ℕ
  updatedAt : ℕ
deriving DecidableEq

/-- Embeds `domain.DriverWithDistance`: a driver paired with its computed
distance in meters. -/
structure DriverWithDistance where
  driver : Driver
  distance : ℝ

/-- Embeds `domain.SearchRequest`. -/
structure SearchRequest where
  location : Point
  radius : ℚ
  limit : ℤ
deriving DecidableEq

/-- Embeds `domain.CreateDriverRequest`. -/
structure CreateDriverRequest where
  id : String
  location : Point
deriving DecidableEq

/-- Embeds `domain.BatchCreateRequest`. -/
structure BatchCreateRequest where
  drivers : List CreateDriverRequest
deriving DecidableEq

/-- Embeds Go `math.Atan2` on real arguments (quadrant-corrected
arctangent), following the documented piecewise definition; signed zeros
collapse in `ℝ`. -/
noncomputable def atan2 (y x : ℝ) : ℝ :=
  if 0 < x then Real.arctan (y / x)
  else if x < 0 then
    (if 0 ≤ y then Real.arctan (y / x) + Real.pi else Real.arctan (y / x) - Real.pi)
  else if 0 < y then Real.pi / 2
  else if y < 0 then -(Real.pi / 2)
  else 0

/-- Embeds `domain.HaversineDistance`, line for line: great-circle distance
in meters on a sphere of radius 6 371 000 m. -/
noncomputable def HaversineDistance (lat1 lon1 lat2 lon2 : ℝ) : ℝ :=
  let R : ℝ := 6371000
  let lat1Rad := lat1 * Real.pi / 180
  let lon1Rad := lon1 * Real.pi / 180
  let lat2Rad := lat2 * Real.pi / 180
  let lon2Rad := lon2 * Real.pi / 180
  let dLat := lat2Rad - lat1Rad
  let dLon := lon2Rad - lon1Rad
  let a := Real.sin (dLat / 2) * Real.sin (dLat / 2) +
    Real.cos lat1Rad * Real.cos lat2Rad * (Real.sin (dLon / 2) * Real.sin (dLon / 2))
  let c := 2 * atan2 (Real.sqrt a) (Real.sqrt (1 - a))
  R * c

/-- Embeds `Point.Distance`: haversine distance between two points, reading
each point's latitude and longitude accessors. -/
noncomputable def Point.dist (p other : Point) : ℝ :=
  HaversineDistance p.latitudeVal p.longitudeVal other.latitudeVal other.longitudeVal

theorem atan2_zero_one : atan2 0 1 = 0 := by
  simp [atan2, Real.arctan_zero]

theorem haversine_self (lat lon : ℝ) : HaversineDistance lat lon lat lon = 0 := by
  unfold HaversineDistance
  simp [atan2_zero_one]

theorem haversine_comm (lat1 lon1 lat2 lon2 : ℝ) :
    HaversineDistance lat1 lon1 lat2 lon2 = HaversineDistance lat2 lon2 lat1 lon1 := by
  unfold HaversineDistance
  have h1 : (lat1 * Real.pi / 180 - lat2 * Real.pi / 180) / 2 =
      -((lat2 * Real.pi / 180 - lat1 * Real.pi / 180) / 2) := by ring
  have h2 : (lon1 * Real.pi / 180 - lon2 * Real.pi / 180) / 2 =
      -((lon2 * Real.pi / 180 - lon1 * Real.pi / 180) / 2) := by ring
  simp only [h1, h2, Real.sin_neg]
  ring_nf

/-- The central-angle factor of the haversine formula, named so that the
Earth-radius scaling in `HaversineDistance` can be stated explicitly. -/
noncomputable def haversineCentralAngle (lat1 lon1 lat2 lon2 : ℝ) : ℝ :=
  let lat1Rad := lat1 * Real.pi / 180
  let lon1Rad := lon1 * Real.pi / 180
  let lat2Rad := lat2 * Real.pi / 180
  let lon2Rad := lon2 * Real.pi / 180
  let dLat := lat2Rad - lat1Rad
  let dLon := lon2Rad - lon1Rad
  let a := Real.sin (dLat / 2) * Real.sin (dLat / 2) +
    Real.cos lat1Rad * Real.cos lat2Rad * (Real.sin (dLon / 2) * Real.sin (dLon / 2))
  2 * atan2 (Real.sqrt a) (Real.sqrt (1 - a))

/-- C9: `HaversineDistance` is symmetric in its two coordinate pairs, the
distance from a coordinate to itself is below one meter, and the result is
the spherical Earth radius of 6 371 000 meters times the central angle. -/
theorem haversine_symmetric_selfzero_radius :
    (∀ lat1 lon1 lat2 lon2 : ℝ,
      HaversineDistance lat1 lon1 lat2 lon2 = HaversineDistance lat2 lon2 lat1 lon1)
    ∧ (∀ lat lon : ℝ, HaversineDistance lat lon lat lon < 1)
    ∧ (∀ lat1 lon1 lat2 lon2 : ℝ,
      HaversineDistance lat1 lon1 lat2 lon2 =
        6371000 * haversineCentralAngle lat1 lon1 lat2 lon2) := by
  refine ⟨haversine_comm, ?_, ?_⟩
  · intro lat lon
    rw [haversine_self]
    norm_num
  · intro lat1 lon1 lat2 lon2
    rfl

/-- C10: `NewPoint` yields exactly the two coordinates `[longitude,
latitude]`, on which the unchecked accessors succeed with the constructor's
arguments; the accessors succeed on any point with at least two
coordinates, and a point decoded with fewer coordinates makes the latitude
access out of bounds. -/
theorem point_accessors_safe_iff_two_coordinates :
    (∀ lon lat : ℚ, (NewPoint lon lat).coordinates = [lon, lat]
      ∧ (NewPoint lon lat).longitudeOpt = some lon
      ∧ (NewPoint lon lat).latitudeOpt = some lat)
    ∧ (∀ p : Point, 2 ≤ p.coordinates.length →
        p.longitudeOpt.isSome ∧ p.latitudeOpt.isSome)
    ∧ (∀ p : Point, p.coordinates.length < 2 → p.latitudeOpt = none) := by
  refine ⟨?_, ?_, ?_⟩
  · intro lon lat
    exact ⟨rfl, rfl, rfl⟩
  · intro p hp
    constructor
    · simp [Point.longitudeOpt, List.getElem?_eq_getElem, Nat.lt_of_lt_of_le
        (by norm_num : (0 : ℕ) < 2) hp]
    · simp [Point.latitudeOpt, List.getElem?_eq_getElem, Nat.lt_of_lt_of_le
        (by norm_num : (1 : ℕ) < 2) hp]
  · intro p hp
    exact List.getElem?_eq_none (by omega)

/-- Witness for C10 at concrete points: a two-coordinate point satisfies
the length precondition and both accessors succeed; a one-coordinate point
falls under the out-of-bounds case. -/
theorem point_accessors_safe_iff_two_coordinates_witness :
    (2 ≤ (Point.mk "Point" [1, 2]).coordinates.length
      ∧ ((Point.mk "Point" [1, 2]).longitudeOpt.isSome
        ∧ (Point.mk "Point" [1, 2]).latitudeOpt.isSome))
    ∧ ((Point.mk "Point" [3]).coordinates.length < 2
      ∧ (Point.mk "Point" [3]).latitudeOpt = none) :=
  ⟨⟨by decide, point_accessors_safe_iff_two_coordinates.2.1 (Point.mk "Point" [1, 2]) (by decide)⟩,
    ⟨by decide, point_accessors_safe_iff_two_coordinates.2.2 (Point.mk "Point" [3]) (by decide)⟩⟩

/-- The ordering used by the geospatial query: ascending distance from the
query point. -/
noncomputable def nearerTo (location : Point) (d1 d2 : Driver) : Prop :=
  Point.dist location d1.location ≤ Point.dist location d2.location

noncomputable instance (location : Point) : DecidableRel (nearerTo location) :=
  fun _ _ => Real.decidableLE _ _

/-- Modelled from the spec: the MongoDB `$near` operator that backs
`MongoDriverRepository.SearchNearby` is not part of this repository's
source. Per the spec's Location Store contract it returns the stored
drivers within `radiusMeters` of the query point, sorted ascending by
great-circle distance, with the driver-side cursor limit applied; a limit
of `0` means no cap (the spec's "the store itself may accept 0 to mean no
cap") and a negative limit caps at its absolute value. -/
noncomputable def mongoNearQuery (store : List Driver) (location : Point)
    (radiusMeters : ℝ) (limit : ℤ) : List Driver :=
  let within := store.filter fun d => decide (Point.dist location d.location ≤ radiusMeters)
  let sorted := within.insertionSort (nearerTo location)
  if limit = 0 then sorted else sorted.take limit.natAbs

/-- Embeds `MongoDriverRepository.SearchNearby`
(internal/adapter/db/mongo_repository.go): runs the `$near` query with the
radius and limit, then pairs every returned driver with its haversine
distance from the query point. -/
noncomputable def SearchNearby (store : List Driver) (location : Point)
    (radiusMeters : ℝ) (limit : ℤ) : List DriverWithDistance :=
  (mongoNearQuery store location radiusMeters limit).map fun d =>
    { driver := d, distance := Point.dist location d.location }

theorem mongoNearQuery_subset_filter {store : List Driver} {location : Point}
    {radiusMeters : ℝ} {limit : ℤ} {d : Driver}
    (hd : d ∈ mongoNearQuery store location radiusMeters limit) :
    d ∈ store ∧ Point.dist location d.location ≤ radiusMeters := by
  unfold mongoNearQuery at hd
  have hmem : d ∈ (store.filter fun d =>
      decide (Point.dist location d.location ≤ radiusMeters)).insertionSort
        (nearerTo location) := by
    by_cases h0 : limit = 0
    · simpa [h0] using hd
    · simp only [h0, if_neg] at hd
      exact List.take_subset _ _ hd
  rw [List.mem_insertionSort, List.mem_filter, decide_eq_true_eq] at hmem
  exact hmem

theorem mongoNearQuery_sorted (store : List Driver) (location : Point)
    (radiusMeters : ℝ) (limit : ℤ) :
    List.Sorted (nearerTo location) (mongoNearQuery store location radiusMeters limit) := by
  unfold mongoNearQuery
  haveI : IsTotal Driver (nearerTo location) := ⟨fun d1 d2 => le_total _ _⟩
  haveI : IsTrans Driver (nearerTo location) := ⟨fun _ _ _ => le_trans⟩
  by_cases h0 : limit = 0
  · simpa [h0] using List.sorted_insertionSort _ _
  · simp only [h0, if_neg]
    exact (List.sorted_insertionSort _ _).sublist (List.take_sublist _ _)

/-- C1 (amended to positive limits): with a positive radius and a limit of
at least one, `SearchNearby` returns only drivers within the radius, each
paired with its haversine distance from the query center, in a list of
length at most the limit, sorted non-decreasing in the `distance` field,
and the list is empty (with no error) when no stored driver is within the
radius. -/
theorem searchNearby_within_sorted_capped (store : List Driver) (location : Point)
    (radiusMeters : ℝ) (limit : ℤ) (hr : 0 < radiusMeters) (hl : 1 ≤ limit) :
    (∀ x ∈ SearchNearby store location radiusMeters limit,
      x.driver ∈ store ∧ x.distance = Point.dist location x.driver.location
        ∧ x.distance ≤ radiusMeters)
    ∧ ((SearchNearby store location radiusMeters limit).length : ℤ) ≤ limit
    ∧ List.Sorted (fun a b : DriverWithDistance => a.distance ≤ b.distance)
        (SearchNearby store location radiusMeters limit)
    ∧ ((∀ d ∈ store, radiusMeters < Point.dist location d.location) →
        SearchNearby store location radiusMeters limit = []) := by
  refine ⟨?_, ?_, ?_, ?_⟩
  · intro x hx
    unfold SearchNearby at hx
    rcases List.mem_map.1 hx with ⟨d, hd, rfl⟩
    rcases mongoNearQuery_subset_filter hd with ⟨hds, hdr⟩
    exact ⟨hds, rfl, hdr⟩
  · unfold SearchNearby mongoNearQuery
    have h0 : limit ≠ 0 := by omega
    simp only [h0, if_neg, List.length_map, ne_eq, not_false_iff]
    calc ((List.take limit.natAbs _).length : ℤ)
        ≤ (limit.natAbs : ℤ) := by
          exact_mod_cast Nat.le_of_lt_succ (Nat.lt_succ_of_le (List.length_take_le _ _))
      _ = limit := by omega
  · unfold SearchNearby
    have hs := mongoNearQuery_sorted store location radiusMeters limit
    exact List.Pairwise.map _ (fun a b hab => hab) hs
  · intro hfar
    unfold SearchNearby mongoNearQuery
    have hnil : store.filter
        (fun d => decide (Point.dist location d.location ≤ radiusMeters)) = [] := by
      rw [List.filter_eq_nil_iff]
      intro d hd
      simpa using not_le.2 (hfar d hd)
    simp [hnil]

/-- Witness for C1 at a concrete query: positive radius and unit limit. -/
theorem searchNearby_within_sorted_capped_witness :
    (0 : ℝ) < 1 ∧ (1 : ℤ) ≤ 1 ∧
      (((SearchNearby [] (NewPoint 0 0) 1 1).length : ℤ) ≤ 1) :=
  ⟨by norm_num, le_refl 1,
    (searchNearby_within_sorted_capped [] (NewPoint 0 0) 1 1 (by norm_num) (le_refl 1)).2.1⟩

/-- A driver standing exactly at the query center, used to exercise the
uncapped limit-zero behavior of the geospatial query. -/
def centerDriver : Driver :=
  { id := "d1", location := NewPoint 0 0, createdAt := 0, updatedAt := 0 }

theorem dist_center_self : Point.dist (NewPoint 0 0) centerDriver.location = 0 := by
  have : Point.dist (NewPoint 0 0) centerDriver.location =
      HaversineDistance 0 0 0 0 := by
    simp [Point.dist, centerDriver, Point.latitudeVal, Point.longitudeVal, NewPoint]
  rw [this, haversine_self]

/-- C1 counterexample: at limit `0` the store applies no cap, so with one
driver inside a positive radius the result has length `1 > 0`, refuting
"length at most limit" for every limit. -/
theorem searchNearby_limit_zero_not_capped :
    (0 : ℝ) < 1 ∧
      ¬ (((SearchNearby [centerDriver] (NewPoint 0 0) 1 0).length : ℤ) ≤ 0) := by
  refine ⟨by norm_num, ?_⟩
  have hq : mongoNearQuery [centerDriver] (NewPoint 0 0) 1 0 = [centerDriver] := by
    unfold mongoNearQuery
    have hdec : decide (Point.dist (NewPoint 0 0) centerDriver.location ≤ (1 : ℝ)) = true := by
      rw [decide_eq_true_eq, dist_center_self]
      norm_num
    simp [hdec, List.insertionSort]
  unfold SearchNearby
  rw [hq]
  norm_num

/-- Character for a single decimal digit, as printed by Go's fmt package. -/
def digitChar (d : ℕ) : Char := Char.ofNat (48 + d)

/-- Decimal rendering of a natural number (most significant digit first),
modelling Go's `%d` output; `0` prints as `"0"`. -/
def natChars (n : ℕ) : List Char :=
  if n = 0 then ['0'] else (Nat.digits 10 n).reverse.map digitChar

/-- Decimal rendering of an integer, modelling Go's `%d`. -/
def intChars (z : ℤ) : List Char :=
  if z < 0 then '-' :: natChars z.natAbs else natChars z.toNat

/-- Round a nonnegative rational to the nearest integer, ties to even;
this is the rounding Go's strconv applies when formatting a float64 with a
fixed number of decimals. -/
def rne (x : ℚ) : ℤ :=
  let f := ⌊x⌋
  if x - f < 1 / 2 then f
  else if 1 / 2 < x - f then f + 1
  else if Even f then f else f + 1

/-- The quantization `%.*f` applies to a float64: its sign bit and the
magnitude scaled by `10 ^ prec` and rounded to an integer. -/
def quantFixed (prec : ℕ) (q : ℚ) : Bool × ℕ :=
  (decide (q < 0), (rne (|q| * 10 ^ prec)).toNat)

/-- The fractional digits of `%.*f` output: exactly `prec` decimal digits
of `fp`, most significant first, zero padded. -/
def padChars (prec fp : ℕ) : List Char :=
  (List.range prec).reverse.map fun i => digitChar (fp / 10 ^ i % 10)

/-- Renders a quantized sign/magnitude pair with exactly `prec` fractional
digits (none, and no decimal point, when `prec = 0`). -/
def fixedOfParts (prec : ℕ) (sign : Bool) (n : ℕ) : List Char :=
  (if sign then ['-'] else []) ++ natChars (n / 10 ^ prec) ++
    (if prec = 0 then [] else '.' :: padChars prec (n % 10 ^ prec))

/-- Fixed-point decimal rendering of a rational, modelling Go's `%.*f`
formatting of a float64 value. -/
def fixedChars (prec : ℕ) (q : ℚ) : List Char :=
  fixedOfParts prec (quantFixed prec q).1 (quantFixed prec q).2

/-- Embeds `RedisDriverCache.generateNearbyKey`:
`fmt.Sprintf("nearby:%.6f:%.6f:%.0f:%d", lat, lon, radius, limit)`. Go
strings are modelled as character lists. -/
def generateNearbyKey (lat lon radius : ℚ) (limit : ℤ) : List Char :=
  ['n', 'e', 'a', 'r', 'b', 'y', ':'] ++
    (fixedChars 6 lat ++ ':' ::
      (fixedChars 6 lon ++ ':' :: (fixedChars 0 radius ++ ':' :: intChars limit)))

/-- One call performed by the application service against its repository
(Location Store) or cache (Proximity Cache) interfaces, in program order.
Nearby-cache events carry the Redis key the cache adapter derives. -/
inductive Event where
  | repoCreate
  | repoBatchCreate
  | repoSearch
  | repoGet
  | repoUpdate
  | repoDelete
  | cacheGet (id : String)
  | cacheSet (id : String) (d : Driver)
  | cacheDelete (id : String)
  | cacheGetNearby (key : List Char)
  | cacheSetNearby (key : List Char) (res : List DriverWithDistance)
  | cacheInvalidateNearby

/-- Whether an event is a Location Store access. -/
def Event.isStore : Event → Bool
  | .repoCreate | .repoBatchCreate | .repoSearch | .repoGet | .repoUpdate | .repoDelete => true
  | _ => false

/-- Whether an event is a Proximity Cache access. -/
def Event.isCacheOp (e : Event) : Bool := !e.isStore

/-- Oracles standing for the `DriverRepository` and `DriverCache`
interfaces the `DriverApplicationService` is constructed with, plus the
wall clock; each function gives the outcome of one call. `repoCreate` and
`repoBatchCreate` return the stored driver(s) with ID and timestamps
assigned, as the Go repository writes them back in place. -/
structure Deps where
  now : ℕ
  repoCreate : Driver → Except String Driver
  repoBatchCreate : List Driver → Except String (List Driver)
  repoSearchNearby : Point → ℚ → ℤ → Except String (List DriverWithDistance)
  repoGetByID : String → Except String Driver
  repoUpdate : Driver → Except String Unit
  repoDelete : String → Except String Unit
  cacheGet : String → Except String (Option Driver)
  cacheSet : String → Driver → Except String Unit
  cacheDelete : String → Except String Unit
  cacheGetNearby : List Char → Except String (Option (List DriverWithDistance))
  cacheSetNearby : List Char → List DriverWithDistance → Except String Unit
  cacheInvalidateNearby : Except String Unit

/-- Models Go's `strings.TrimSpace`: drops leading and trailing
whitespace. -/
def trimSpace (s : String) : String :=
  ⟨((s.data.dropWhile Char.isWhitespace).reverse.dropWhile Char.isWhitespace).reverse⟩

/-- Models the go-playground validation of a `Point`
(`type` must equal `"Point"`, `coordinates` must have length 2). -/
def validPoint (p : Point) : Bool :=
  p.type = "Point" && p.coordinates.length = 2

/-- Validation of `CreateDriverRequest` (`location` is required and
validated as a nested struct). -/
def validCreateDriverRequest (r : CreateDriverRequest) : Bool :=
  validPoint r.location

/-- Validation of `BatchCreateRequest` (`drivers` required, `min=1`,
`dive`). -/
def validBatchCreateRequest (r : BatchCreateRequest) : Bool :=
  decide (1 ≤ r.drivers.length) && r.drivers.all validCreateDriverRequest

/-- Validation of `SearchRequest`: `radius` has `required,gt=0`; `limit`
has `omitempty,gte=0`, so the zero value skips the check while a negative
limit fails it. -/
def validSearchRequest (r : SearchRequest) : Bool :=
  validPoint r.location && decide (0 < r.radius) &&
    (decide (r.limit = 0) || decide (0 ≤ r.limit))

/-- Validation of a full `Driver` (only its location carries tags). -/
def validDriver (d : Driver) : Bool :=
  validPoint d.location

/-- The driver value `CreateDriver` builds from a request before handing
it to the repository: location copied, ID trimmed when provided. -/
def driverFromCreate (req : CreateDriverRequest) : Driver :=
  { id := if req.id ≠ "" then (trimSpace req.id) else ""
    location := req.location
    createdAt := 0
    updatedAt := 0 }

/-- Embeds `DriverApplicationService.CreateDriver`: validate, write to the
store, then (best effort) cache the new driver and invalidate the nearby
cache. The returned trace lists the interface calls in program order. -/
def CreateDriver (s : Deps) (req : CreateDriverRequest) :
    Except String Driver × List Event :=
  if validCreateDriverRequest req then
    match s.repoCreate (driverFromCreate req) with
    | .error e => (.error ("failed to create driver: " ++ e), [.repoCreate])
    | .ok d => (.ok d, [.repoCreate, .cacheSet d.id d, .cacheInvalidateNearby])
  else (.error "invalid request", [])

/-- Embeds `DriverApplicationService.BatchCreateDrivers`: validate, batch
write, then (best effort) invalidate the nearby cache. -/
def BatchCreateDrivers (s : Deps) (req : BatchCreateRequest) :
    Except String (List Driver) × List Event :=
  if validBatchCreateRequest req then
    match s.repoBatchCreate (req.drivers.map driverFromCreate) with
    | .error e => (.error ("failed to batch create drivers: " ++ e), [.repoBatchCreate])
    | .ok ds => (.ok ds, [.repoBatchCreate, .cacheInvalidateNearby])
  else (.error "invalid request", [])

/-- Embeds `DriverApplicationService.SearchNearbyDrivers`: validate,
substitute the default limit 10 for a non-positive limit, consult the
nearby cache (an error is logged and treated as a miss), fall back to the
store, then (best effort) populate the cache. -/
def SearchNearbyDrivers (s : Deps) (req : SearchRequest) :
    Except String (List DriverWithDistance) × List Event :=
  if validSearchRequest req then
    let limit := if req.limit ≤ 0 then 10 else req.limit
    let key := generateNearbyKey req.location.latitudeVal req.location.longitudeVal
      req.radius limit
    match s.cacheGetNearby key with
    | .ok (some cached) => (.ok cached, [.cacheGetNearby key])
    | _ =>
      match s.repoSearchNearby req.location req.radius limit with
      | .error e =>
          (.error ("failed to search nearby drivers: " ++ e), [.cacheGetNearby key, .repoSearch])
      | .ok drivers =>
          (.ok drivers, [.cacheGetNearby key, .repoSearch, .cacheSetNearby key drivers])
  else (.error "invalid request", [])

/-- Embeds `DriverApplicationService.GetDriver`: blank-ID guard, cache
lookup (an error is logged and treated as a miss), store fallback, then
(best effort) cache population. -/
def GetDriver (s : Deps) (id : String) : Except String Driver × List Event :=
  if trimSpace id = "" then (.error "driver ID is required", [])
  else
    match s.cacheGet id with
    | .ok (some cached) => (.ok cached, [.cacheGet id])
    | _ =>
      match s.repoGetByID id with
      | .error e => (.error ("failed to get driver: " ++ e), [.cacheGet id, .repoGet])
      | .ok d => (.ok d, [.cacheGet id, .repoGet, .cacheSet id d])

/-- Embeds `DriverApplicationService.DeleteDriver`: blank-ID guard, store
delete, then (best effort) per-driver cache delete and nearby
invalidation. -/
def DeleteDriver (s : Deps) (id : String) : Except String Unit × List Event :=
  if trimSpace id = "" then (.error "driver ID is required", [])
  else
    match s.repoDelete id with
    | .error e => (.error ("failed to delete driver: " ++ e), [.repoDelete])
    | .ok _ => (.ok (), [.repoDelete, .cacheDelete id, .cacheInvalidateNearby])

/-- Embeds `DriverApplicationService.UpdateDriverLocation`: blank-ID and
location validation, read-modify-write against the store, then (best
effort) per-driver cache delete and nearby invalidation. -/
def UpdateDriverLocation (s : Deps) (id : String) (location : Point) :
    Except String Unit × List Event :=
  if trimSpace id = "" then (.error "driver ID is required", [])
  else if validPoint location then
    match s.repoGetByID id with
    | .error e => (.error ("failed to get driver: " ++ e), [.repoGet])
    | .ok driver =>
      match s.repoUpdate { driver with location := location, updatedAt := s.now } with
      | .error e => (.error ("failed to update driver location: " ++ e), [.repoGet, .repoUpdate])
      | .ok _ => (.ok (), [.repoGet, .repoUpdate, .cacheDelete id, .cacheInvalidateNearby])
  else (.error "invalid location", [])

/-- Embeds `DriverApplicationService.UpdateDriver`: validation, store
update, then (best effort) per-driver cache delete and nearby
invalidation. -/
def UpdateDriver (s : Deps) (driver : Driver) : Except String Unit × List Event :=
  if validDriver driver then
    match s.repoUpdate driver with
    | .error e => (.error ("failed to update driver: " ++ e), [.repoUpdate])
    | .ok _ => (.ok (), [.repoUpdate, .cacheDelete driver.id, .cacheInvalidateNearby])
  else (.error "invalid driver", [])

/-- The Proximity Cache contents: per-driver entries keyed by driver ID
and nearby-search entries keyed by the derived Redis key. -/
structure CacheState where
  drivers : List (String × Driver)
  nearby : List (List Char × List DriverWithDistance)

/-- Effect of one traced event on the cache contents. A cache call whose
oracle reports failure leaves the state unchanged (the service logs and
swallows the error); store events do not touch the cache. -/
def applyEvent (s : Deps) (st : CacheState) : Event → CacheState
  | .cacheSet id d =>
      match s.cacheSet id d with
      | .ok _ => { st with drivers := (id, d) :: st.drivers.filter fun p => p.1 != id }
      | .error _ => st
  | .cacheDelete id =>
      match s.cacheDelete id with
      | .ok _ => { st with drivers := st.drivers.filter fun p => p.1 != id }
      | .error _ => st
  | .cacheSetNearby key res =>
      match s.cacheSetNearby key res with
      | .ok _ => { st with nearby := (key, res) :: st.nearby.filter fun p => p.1 != key }
      | .error _ => st
  | .cacheInvalidateNearby =>
      match s.cacheInvalidateNearby with
      | .ok _ => { st with nearby := [] }
      | .error _ => st
  | _ => st

/-- Replay of a whole trace on the cache contents. -/
def applyEvents (s : Deps) (st : CacheState) (l : List Event) : CacheState :=
  l.foldl (applyEvent s) st

/-- Oracles in which every repository and cache call succeeds trivially:
the repository echoes writes, finds `centerDriver`, and returns no search
results; the cache always misses. -/
def okDeps : Deps where
  now := 0
  repoCreate := fun d => .ok d
  repoBatchCreate := fun l => .ok l
  repoSearchNearby := fun _ _ _ => .ok []
  repoGetByID := fun _ => .ok centerDriver
  repoUpdate := fun _ => .ok ()
  repoDelete := fun _ => .ok ()
  cacheGet := fun _ => .ok none
  cacheSet := fun _ _ => .ok ()
  cacheDelete := fun _ => .ok ()
  cacheGetNearby := fun _ => .ok none
  cacheSetNearby := fun _ _ => .ok ()
  cacheInvalidateNearby := .ok ()

/-- The empty Proximity Cache. -/
def emptyCache : CacheState := ⟨[], []⟩

theorem applyEvents_three_invalidate (s : Deps) (st : CacheState)
    (e1 e2 : Event) (h : s.cacheInvalidateNearby = .ok ()) :
    (applyEvents s st [e1, e2, .cacheInvalidateNearby]).nearby = [] := by
  simp [applyEvents, applyEvent, h]

theorem applyEvents_batch_invalidate (s : Deps) (st : CacheState)
    (e1 : Event) (h : s.cacheInvalidateNearby = .ok ()) :
    (applyEvents s st [e1, .cacheInvalidateNearby]).nearby = [] := by
  simp [applyEvents, applyEvent, h]

theorem applyEvents_four_invalidate (s : Deps) (st : CacheState)
    (e1 e2 e3 : Event) (h : s.cacheInvalidateNearby = .ok ()) :
    (applyEvents s st [e1, e2, e3, .cacheInvalidateNearby]).nearby = [] := by
  simp [applyEvents, applyEvent, h]

/-- C4: every successful mutation issues its cache maintenance in order:
the affected per-driver entry is deleted (set, for a fresh create) where
applicable, and the nearby cache is invalidated as the final step, so that
(when the invalidation call itself is not dropped by a cache failure) no
nearby-search entry cached before the mutation survives. -/
theorem mutation_success_invalidates_nearby (s : Deps) (st : CacheState) :
    (∀ req d, validCreateDriverRequest req = true →
      s.repoCreate (driverFromCreate req) = .ok d →
      (CreateDriver s req).2 = [.repoCreate, .cacheSet d.id d, .cacheInvalidateNearby]
      ∧ (s.cacheInvalidateNearby = .ok () →
          (applyEvents s st (CreateDriver s req).2).nearby = []))
    ∧ (∀ req ds, validBatchCreateRequest req = true →
      s.repoBatchCreate (req.drivers.map driverFromCreate) = .ok ds →
      (BatchCreateDrivers s req).2 = [.repoBatchCreate, .cacheInvalidateNearby]
      ∧ (s.cacheInvalidateNearby = .ok () →
          (applyEvents s st (BatchCreateDrivers s req).2).nearby = []))
    ∧ (∀ id, trimSpace id ≠ "" → s.repoDelete id = .ok () →
      (DeleteDriver s id).2 = [.repoDelete, .cacheDelete id, .cacheInvalidateNearby]
      ∧ (s.cacheInvalidateNearby = .ok () →
          (applyEvents s st (DeleteDriver s id).2).nearby = []))
    ∧ (∀ id loc driver, trimSpace id ≠ "" → validPoint loc = true →
      s.repoGetByID id = .ok driver →
      s.repoUpdate { driver with location := loc, updatedAt := s.now } = .ok () →
      (UpdateDriverLocation s id loc).2 =
        [.repoGet, .repoUpdate, .cacheDelete id, .cacheInvalidateNearby]
      ∧ (s.cacheInvalidateNearby = .ok () →
          (applyEvents s st (UpdateDriverLocation s id loc).2).nearby = []))
    ∧ (∀ driver, validDriver driver = true → s.repoUpdate driver = .ok () →
      (UpdateDriver s driver).2 = [.repoUpdate, .cacheDelete driver.id, .cacheInvalidateNearby]
      ∧ (s.cacheInvalidateNearby = .ok () →
          (applyEvents s st (UpdateDriver s driver).2).nearby = [])) := by
  refine ⟨?_, ?_, ?_, ?_, ?_⟩
  · intro req d hv hc
    have ht : (CreateDriver s req).2 =
        [.repoCreate, .cacheSet d.id d, .cacheInvalidateNearby] := by
      simp [CreateDriver, hv, hc]
    exact ⟨ht, fun hinv => by rw [ht]; exact applyEvents_three_invalidate s st _ _ hinv⟩
  · intro req ds hv hc
    have ht : (BatchCreateDrivers s req).2 = [.repoBatchCreate, .cacheInvalidateNearby] := by
      simp [BatchCreateDrivers, hv, hc]
    exact ⟨ht, fun hinv => by rw [ht]; exact applyEvents_batch_invalidate s st _ hinv⟩
  · intro id hid hc
    have ht : (DeleteDriver s id).2 = [.repoDelete, .cacheDelete id, .cacheInvalidateNearby] := by
      simp [DeleteDriver, hid, hc]
    exact ⟨ht, fun hinv => by rw [ht]; exact applyEvents_three_invalidate s st _ _ hinv⟩
  · intro id loc driver hid hv hg hu
    have ht : (UpdateDriverLocation s id loc).2 =
        [.repoGet, .repoUpdate, .cacheDelete id, .cacheInvalidateNearby] := by
      simp [UpdateDriverLocation, hid, hv, hg, hu]
    exact ⟨ht, fun hinv => by rw [ht]; exact applyEvents_four_invalidate s st _ _ _ hinv⟩
  · intro driver hv hu
    have ht : (UpdateDriver s driver).2 =
        [.repoUpdate, .cacheDelete driver.id, .cacheInvalidateNearby] := by
      simp [UpdateDriver, hv, hu]
    exact ⟨ht, fun hinv => by rw [ht]; exact applyEvents_three_invalidate s st _ _ hinv⟩

/-- Witness for C4: a concrete create and a concrete delete against
everywhere-succeeding oracles leave the nearby cache empty. -/
theorem mutation_success_invalidates_nearby_witness :
    ((CreateDriver okDeps ⟨"", NewPoint 0 0⟩).2 =
        [.repoCreate, .cacheSet (driverFromCreate ⟨"", NewPoint 0 0⟩).id
          (driverFromCreate ⟨"", NewPoint 0 0⟩), .cacheInvalidateNearby]
      ∧ (applyEvents okDeps emptyCache (CreateDriver okDeps ⟨"", NewPoint 0 0⟩).2).nearby = [])
    ∧ ((DeleteDriver okDeps "d1").2 = [.repoDelete, .cacheDelete "d1", .cacheInvalidateNearby]
      ∧ (applyEvents okDeps emptyCache (DeleteDriver okDeps "d1").2).nearby = []) := by
  have hc := (mutation_success_invalidates_nearby okDeps emptyCache).1
    ⟨"", NewPoint 0 0⟩ (driverFromCreate ⟨"", NewPoint 0 0⟩) (by decide) rfl
  have hd := (mutation_success_invalidates_nearby okDeps emptyCache).2.2.1
    "d1" (by decide) rfl
  exact ⟨⟨hc.1, hc.2 rfl⟩, ⟨hd.1, hd.2 rfl⟩⟩

/-- C6: when the Location Store operation fails, the service surfaces the
error, the trace holds no cache call at all, and replaying it leaves the
cache contents untouched. -/
theorem store_failure_no_cache_interaction (s : Deps) (st : CacheState) :
    (∀ req e, validCreateDriverRequest req = true →
      s.repoCreate (driverFromCreate req) = .error e →
      (CreateDriver s req).1 = .error ("failed to create driver: " ++ e)
      ∧ (∀ ev ∈ (CreateDriver s req).2, ev.isCacheOp = false)
      ∧ applyEvents s st (CreateDriver s req).2 = st)
    ∧ (∀ req e, validBatchCreateRequest req = true →
      s.repoBatchCreate (req.drivers.map driverFromCreate) = .error e →
      (BatchCreateDrivers s req).1 = .error ("failed to batch create drivers: " ++ e)
      ∧ (∀ ev ∈ (BatchCreateDrivers s req).2, ev.isCacheOp = false)
      ∧ applyEvents s st (BatchCreateDrivers s req).2 = st)
    ∧ (∀ id e, trimSpace id ≠ "" → s.repoDelete id = .error e →
      (DeleteDriver s id).1 = .error ("failed to delete driver: " ++ e)
      ∧ (∀ ev ∈ (DeleteDriver s id).2, ev.isCacheOp = false)
      ∧ applyEvents s st (DeleteDriver s id).2 = st)
    ∧ (∀ id loc driver e, trimSpace id ≠ "" → validPoint loc = true →
      s.repoGetByID id = .ok driver →
      s.repoUpdate { driver with location := loc, updatedAt := s.now } = .error e →
      (UpdateDriverLocation s id loc).1 = .error ("failed to update driver location: " ++ e)
      ∧ (∀ ev ∈ (UpdateDriverLocation s id loc).2, ev.isCacheOp = false)
      ∧ applyEvents s st (UpdateDriverLocation s id loc).2 = st)
    ∧ (∀ driver e, validDriver driver = true → s.repoUpdate driver = .error e →
      (UpdateDriver s driver).1 = .error ("failed to update driver: " ++ e)
      ∧ (∀ ev ∈ (UpdateDriver s driver).2, ev.isCacheOp = false)
      ∧ applyEvents s st (UpdateDriver s driver).2 = st) := by
  refine ⟨?_, ?_, ?_, ?_, ?_⟩
  · intro req e hv hc
    refine ⟨by simp [CreateDriver, hv, hc], ?_, ?_⟩
    · simp [CreateDriver, hv, hc, Event.isCacheOp, Event.isStore]
    · simp [CreateDriver, hv, hc, applyEvents, applyEvent]
  · intro req e hv hc
    refine ⟨by simp [BatchCreateDrivers, hv, hc], ?_, ?_⟩
    · simp [BatchCreateDrivers, hv, hc, Event.isCacheOp, Event.isStore]
    · simp [BatchCreateDrivers, hv, hc, applyEvents, applyEvent]
  · intro id e hid hc
    refine ⟨by simp [DeleteDriver, hid, hc], ?_, ?_⟩
    · simp [DeleteDriver, hid, hc, Event.isCacheOp, Event.isStore]
    · simp [DeleteDriver, hid, hc, applyEvents, applyEvent]
  · intro id loc driver e hid hv hg hu
    refine ⟨by simp [UpdateDriverLocation, hid, hv, hg, hu], ?_, ?_⟩
    · simp [UpdateDriverLocation, hid, hv, hg, hu, Event.isCacheOp, Event.isStore]
    · simp [UpdateDriverLocation, hid, hv, hg, hu, applyEvents, applyEvent]
  · intro driver e hv hu
    refine ⟨by simp [UpdateDriver, hv, hu], ?_, ?_⟩
    · simp [UpdateDriver, hv, hu, Event.isCacheOp, Event.isStore]
    · simp [UpdateDriver, hv, hu, applyEvents, applyEvent]

/-- Oracles whose repository always fails with a persistence error while
the cache is healthy, for exercising the store-failure path. -/
def failingStoreDeps : Deps where
  now := 0
  repoCreate := fun _ => .error "persist"
  repoBatchCreate := fun _ => .error "persist"
  repoSearchNearby := fun _ _ _ => .error "persist"
  repoGetByID := fun _ => .error "persist"
  repoUpdate := fun _ => .error "persist"
  repoDelete := fun _ => .error "persist"
  cacheGet := fun _ => .ok none
  cacheSet := fun _ _ => .ok ()
  cacheDelete := fun _ => .ok ()
  cacheGetNearby := fun _ => .ok none
  cacheSetNearby := fun _ _ => .ok ()
  cacheInvalidateNearby := .ok ()

/-- Witness for C6: a concrete create against a failing store returns the
error and replaying its trace changes nothing in the cache. -/
theorem store_failure_no_cache_interaction_witness :
    (CreateDriver failingStoreDeps ⟨"", NewPoint 0 0⟩).1 =
        .error ("failed to create driver: " ++ "persist")
    ∧ (∀ ev ∈ (CreateDriver failingStoreDeps ⟨"", NewPoint 0 0⟩).2, ev.isCacheOp = false)
    ∧ applyEvents failingStoreDeps emptyCache (CreateDriver failingStoreDeps ⟨"", NewPoint 0 0⟩).2 =
        emptyCache :=
  (store_failure_no_cache_interaction failingStoreDeps emptyCache).1
    ⟨"", NewPoint 0 0⟩ "persist" (by decide) rfl

/-- C5: a per-driver cache hit makes `GetDriver` return the cached driver
with no Location Store access, and a nearby-cache hit makes
`SearchNearbyDrivers` return the cached result set with no Location Store
access. -/
theorem cache_hit_no_store_read (s : Deps) :
    (∀ id d, trimSpace id ≠ "" → s.cacheGet id = .ok (some d) →
      (GetDriver s id).1 = .ok d
      ∧ (∀ ev ∈ (GetDriver s id).2, ev.isStore = false))
    ∧ (∀ req cached, validSearchRequest req = true →
      s.cacheGetNearby (generateNearbyKey req.location.latitudeVal
        req.location.longitudeVal req.radius
        (if req.limit ≤ 0 then 10 else req.limit)) = .ok (some cached) →
      (SearchNearbyDrivers s req).1 = .ok cached
      ∧ (∀ ev ∈ (SearchNearbyDrivers s req).2, ev.isStore = false)) := by
  constructor
  · intro id d hid hhit
    refine ⟨by simp [GetDriver, hid, hhit], ?_⟩
    simp [GetDriver, hid, hhit, Event.isStore]
  · intro req cached hv hhit
    refine ⟨by simp [SearchNearbyDrivers, hv, hhit], ?_⟩
    simp [SearchNearbyDrivers, hv, hhit, Event.isStore]

/-- Oracles that always hit in the cache, serving `centerDriver` and an
empty nearby result set. -/
def hitDeps : Deps where
  now := 0
  repoCreate := fun d => .ok d
  repoBatchCreate := fun l => .ok l
  repoSearchNearby := fun _ _ _ => .ok []
  repoGetByID := fun _ => .ok centerDriver
  repoUpdate := fun _ => .ok ()
  repoDelete := fun _ => .ok ()
  cacheGet := fun _ => .ok (some centerDriver)
  cacheSet := fun _ _ => .ok ()
  cacheDelete := fun _ => .ok ()
  cacheGetNearby := fun _ => .ok (some [])
  cacheSetNearby := fun _ _ => .ok ()
  cacheInvalidateNearby := .ok ()

/-- Witness for C5: a concrete hit on each read path touches no store. -/
theorem cache_hit_no_store_read_witness :
    ((GetDriver hitDeps "d1").1 = .ok centerDriver
      ∧ (∀ ev ∈ (GetDriver hitDeps "d1").2, ev.isStore = false))
    ∧ ((SearchNearbyDrivers hitDeps ⟨NewPoint 0 0, 1, 0⟩).1 = .ok []
      ∧ (∀ ev ∈ (SearchNearbyDrivers hitDeps ⟨NewPoint 0 0, 1, 0⟩).2, ev.isStore = false)) :=
  ⟨(cache_hit_no_store_read hitDeps).1 "d1" centerDriver (by decide) rfl,
    (cache_hit_no_store_read hitDeps).2 ⟨NewPoint 0 0, 1, 0⟩ [] (by decide) rfl⟩

/-- C3 counterexample: a request with `Limit = -1` and otherwise valid
fields fails validation outright (`gte=0` fires for a non-zero limit), so
it performs no cache or store access and its outcome differs from the same
request with `Limit = 10`. -/
theorem searchNearbyDrivers_negative_limit_rejected :
    (SearchNearbyDrivers okDeps ⟨NewPoint 0 0, 1, -1⟩).1 = .error "invalid request"
    ∧ (SearchNearbyDrivers okDeps ⟨NewPoint 0 0, 1, -1⟩).2 = []
    ∧ (SearchNearbyDrivers okDeps ⟨NewPoint 0 0, 1, 10⟩).1 = .ok [] := by
  refine ⟨rfl, rfl, rfl⟩

/-- C3 (amended to the limit value request validation lets through): a
`SearchRequest` with `Limit = 0` behaves exactly like the identical
request with `Limit = 10` — same outcome and same trace, hence the same
derived nearby cache key and the same results; negative limits are
rejected by validation before any cache or store access. -/
theorem searchNearbyDrivers_limit_zero_default (s : Deps) (loc : Point) (radius : ℚ) :
    SearchNearbyDrivers s ⟨loc, radius, 0⟩ = SearchNearbyDrivers s ⟨loc, radius, 10⟩ := by
  unfold SearchNearbyDrivers validSearchRequest
  norm_num

theorem digitChar_toNat {d : ℕ} (h : d < 10) : (digitChar d).toNat = 48 + d := by
  unfold digitChar
  interval_cases d <;> decide

theorem digitChar_inj {d e : ℕ} (h : d < 10) (h' : e < 10)
    (he : digitChar d = digitChar e) : d = e := by
  have hn := congrArg Char.toNat he
  rw [digitChar_toNat h, digitChar_toNat h'] at hn
  omega

theorem digitChar_ne_colon {d : ℕ} (h : d < 10) : digitChar d ≠ ':' := by
  intro he
  have hn := congrArg Char.toNat he
  rw [digitChar_toNat h] at hn
  have hc : (':' : Char).toNat = 58 := by decide
  omega

theorem digitChar_ne_dash {d : ℕ} (h : d < 10) : digitChar d ≠ '-' := by
  intro he
  have hn := congrArg Char.toNat he
  rw [digitChar_toNat h] at hn
  have hc : ('-' : Char).toNat = 45 := by decide
  omega

theorem digitChar_ne_dot {d : ℕ} (h : d < 10) : digitChar d ≠ '.' := by
  intro he
  have hn := congrArg Char.toNat he
  rw [digitChar_toNat h] at hn
  have hc : ('.' : Char).toNat = 46 := by decide
  omega

theorem mem_natChars {c : Char} {n : ℕ} (hc : c ∈ natChars n) :
    ∃ d, d < 10 ∧ c = digitChar d := by
  unfold natChars at hc
  by_cases h0 : n = 0
  · simp [h0] at hc
    exact ⟨0, by norm_num, by rw [hc]; decide⟩
  · simp only [h0, if_neg, ne_eq, not_false_iff] at hc
    rcases List.mem_map.1 hc with ⟨d, hd, rfl⟩
    exact ⟨d, Nat.digits_lt_base (by norm_num) (List.mem_reverse.1 hd), rfl⟩

theorem mem_padChars {c : Char} {prec fp : ℕ} (hc : c ∈ padChars prec fp) :
    ∃ d, d < 10 ∧ c = digitChar d := by
  unfold padChars at hc
  rcases List.mem_map.1 hc with ⟨i, _, rfl⟩
  exact ⟨fp / 10 ^ i % 10, Nat.mod_lt _ (by norm_num), rfl⟩

theorem natChars_ne_nil (n : ℕ) : natChars n ≠ [] := by
  unfold natChars
  by_cases h0 : n = 0
  · simp [h0]
  · simp [h0, Nat.digits_ne_nil_iff_ne_zero.mpr h0]

/-- Decodes a decimal character rendering back to a natural number; the
left inverse that makes `natChars` injective. -/
def charsToNat (l : List Char) : ℕ :=
  Nat.ofDigits 10 ((l.map fun c => c.toNat - 48).reverse)

theorem charsToNat_natChars (n : ℕ) : charsToNat (natChars n) = n := by
  unfold charsToNat natChars
  by_cases h0 : n = 0
  · simp [h0]
  · simp only [h0, if_neg, ne_eq, not_false_iff]
    rw [List.map_map, ← List.map_reverse, List.reverse_reverse]
    have hmap : (Nat.digits 10 n).map ((fun c => c.toNat - 48) ∘ digitChar) =
        Nat.digits 10 n := by
      rw [List.map_eq_map_iff.2, List.map_id]
      intro d hd
      have hlt := Nat.digits_lt_base (by norm_num) hd
      simp [Function.comp, digitChar_toNat hlt]
    rw [hmap, Nat.ofDigits_digits]

theorem natChars_injective {m n : ℕ} (h : natChars m = natChars n) : m = n := by
  have := congrArg charsToNat h
  rwa [charsToNat_natChars, charsToNat_natChars] at this

theorem ofDigits_extract : ∀ (prec fp : ℕ), fp < 10 ^ prec →
    Nat.ofDigits 10 ((List.range prec).map fun i => fp / 10 ^ i % 10) = fp := by
  intro prec
  induction prec with
  | zero =>
      intro fp hfp
      simp at hfp
      simp [hfp]
  | succ k ih =>
      intro fp hfp
      rw [List.range_succ_eq_map]
      simp only [List.map_cons, List.map_map, Nat.ofDigits_cons]
      have hrw : (List.range k).map ((fun i => fp / 10 ^ i % 10) ∘ Nat.succ) =
          (List.range k).map fun i => (fp / 10) / 10 ^ i % 10 := by
        rw [List.map_eq_map_iff.2]
        intro i _
        simp [Function.comp, Nat.div_div_eq_div_mul, pow_succ]
        ring_nf
      rw [hrw, ih (fp / 10) (by
        have : fp < 10 ^ k * 10 := by rw [← pow_succ]; exact hfp
        omega)]
      simp [pow_zero, Nat.div_one]
      omega

theorem charsToNat_padChars {prec fp : ℕ} (h : fp < 10 ^ prec) :
    charsToNat (padChars prec fp) = fp := by
  unfold charsToNat padChars
  rw [List.map_map, ← List.map_reverse, List.reverse_reverse]
  have hmap : (List.range prec).map ((fun c => c.toNat - 48) ∘ fun i => digitChar (fp / 10 ^ i % 10)) =
      (List.range prec).map fun i => fp / 10 ^ i % 10 := by
    rw [List.map_eq_map_iff.2]
    intro i _
    simp [Function.comp, digitChar_toNat (Nat.mod_lt _ (by norm_num : (0:ℕ) < 10))]
  rw [hmap, ofDigits_extract prec fp h]

theorem padChars_injective {prec fp fq : ℕ} (hfp : fp < 10 ^ prec)
    (hfq : fq < 10 ^ prec) (h : padChars prec fp = padChars prec fq) : fp = fq := by
  have := congrArg charsToNat h
  rwa [charsToNat_padChars hfp, charsToNat_padChars hfq] at this

theorem natChars_no_colon {n : ℕ} : (':' : Char) ∉ natChars n := by
  intro hc
  rcases mem_natChars hc with ⟨d, hd, he⟩
  exact digitChar_ne_colon hd he.symm

theorem append_sep_inj {sep : Char} {a : List Char} :
    ∀ {c b d : List Char}, sep ∉ a → sep ∉ c →
      a ++ sep :: b = c ++ sep :: d → a = c ∧ b = d := by
  induction a with
  | nil =>
      intro c b d _ hc h
      cases c with
      | nil => simpa using h
      | cons y ys =>
          rw [List.nil_append, List.cons_append] at h
          have h1 := (List.cons.inj h).1
          exact absurd (h1 ▸ List.mem_cons_self y ys) hc
  | cons x xs ih =>
      intro c b d ha hc h
      cases c with
      | nil =>
          rw [List.cons_append, List.nil_append] at h
          have h1 := (List.cons.inj h).1
          exact absurd (h1 ▸ List.mem_cons_self x xs) ha
      | cons y ys =>
          rw [List.cons_append, List.cons_append] at h
          obtain ⟨h1, h2⟩ := List.cons.inj h
          have ha2 : sep ∉ xs := fun hm => ha (List.mem_cons_of_mem x hm)
          have hc2 : sep ∉ ys := fun hm => hc (List.mem_cons_of_mem y hm)
          obtain ⟨h3, h4⟩ := ih ha2 hc2 h2
          exact ⟨by rw [h1, h3], h4⟩

theorem fixedOfParts_no_colon {prec : ℕ} {sign : Bool} {n : ℕ} :
    (':' : Char) ∉ fixedOfParts prec sign n := by
  intro hc
  unfold fixedOfParts at hc
  rcases List.mem_append.1 hc with hm | hm
  · rcases List.mem_append.1 hm with hm2 | hm2
    · cases sign <;> simp_all
    · exact natChars_no_colon hm2
  · by_cases h0 : prec = 0
    · simp [h0] at hm
    · simp only [h0, if_neg, ne_eq, not_false_iff] at hm
      rcases List.mem_cons.1 hm with hm2 | hm2
      · exact absurd hm2.symm (by decide)
      · rcases mem_padChars hm2 with ⟨d, hd, he⟩
        exact digitChar_ne_colon hd he.symm

theorem intChars_no_colon {z : ℤ} : (':' : Char) ∉ intChars z := by
  intro hc
  unfold intChars at hc
  by_cases hz : z < 0
  · simp only [hz, if_pos] at hc
    rcases List.mem_cons.1 hc with hm | hm
    · exact absurd hm.symm (by decide)
    · exact natChars_no_colon hm
  · simp only [hz, if_neg, not_false_iff] at hc
    exact natChars_no_colon hc

theorem natChars_head_not_dash {n : ℕ} {c : Char} {cs : List Char}
    (h : natChars n = c :: cs) : c ≠ '-' := by
  have hm : c ∈ natChars n := by rw [h]; exact List.mem_cons_self c cs
  rcases mem_natChars hm with ⟨d, hd, he⟩
  exact he ▸ digitChar_ne_dash hd

theorem natChars_no_dot {n : ℕ} : ('.' : Char) ∉ natChars n := by
  intro hc
  rcases mem_natChars hc with ⟨d, hd, he⟩
  exact digitChar_ne_dot hd he.symm

theorem fixedOfParts_inj {prec : ℕ} {s t : Bool} {m n : ℕ}
    (h : fixedOfParts prec s m = fixedOfParts prec t n) : s = t ∧ m = n := by
  unfold fixedOfParts at h
  have hsign : s = t := by
    by_contra hne
    rcases List.exists_cons_of_ne_nil (natChars_ne_nil (m / 10 ^ prec)) with ⟨c, cs, hc⟩
    rcases List.exists_cons_of_ne_nil (natChars_ne_nil (n / 10 ^ prec)) with ⟨c2, cs2, hc2⟩
    cases s <;> cases t <;> simp_all
    · exact natChars_head_not_dash hc rfl
    · exact natChars_head_not_dash hc2 h.1.symm
  subst hsign
  refine ⟨rfl, ?_⟩
  have hmain : natChars (m / 10 ^ prec) ++
      (if prec = 0 then [] else '.' :: padChars prec (m % 10 ^ prec)) =
      natChars (n / 10 ^ prec) ++
      (if prec = 0 then [] else '.' :: padChars prec (n % 10 ^ prec)) := by
    cases s
    · simpa using h
    · rw [List.append_assoc, List.append_assoc] at h
      simpa using h
  by_cases h0 : prec = 0
  · subst h0
    simp only [if_pos, List.append_nil, pow_zero, Nat.div_one] at hmain
    exact natChars_injective hmain
  · simp only [h0, if_neg, ne_eq, not_false_iff] at hmain
    obtain ⟨hdiv, hpad⟩ := append_sep_inj natChars_no_dot natChars_no_dot hmain
    have h1 : m / 10 ^ prec = n / 10 ^ prec := natChars_injective hdiv
    have h2 : m % 10 ^ prec = n % 10 ^ prec :=
      padChars_injective (Nat.mod_lt _ (by positivity)) (Nat.mod_lt _ (by positivity)) hpad
    calc m = 10 ^ prec * (m / 10 ^ prec) + m % 10 ^ prec := (Nat.div_add_mod m _).symm
      _ = 10 ^ prec * (n / 10 ^ prec) + n % 10 ^ prec := by rw [h1, h2]
      _ = n := Nat.div_add_mod n _

theorem intChars_inj {z w : ℤ} (h : intChars z = intChars w) : z = w := by
  unfold intChars at h
  by_cases hz : z < 0 <;> by_cases hw : w < 0
  · simp only [hz, hw, if_pos] at h
    have := natChars_injective (List.cons.inj h).2
    omega
  · simp only [hz, hw, if_pos, if_neg, not_false_iff] at h
    rcases List.exists_cons_of_ne_nil (natChars_ne_nil w.toNat) with ⟨c, cs, hc⟩
    rw [hc] at h
    exact absurd ((List.cons.inj h).1.symm) (natChars_head_not_dash hc)
  · simp only [hz, hw, if_pos, if_neg, not_false_iff] at h
    rcases List.exists_cons_of_ne_nil (natChars_ne_nil z.toNat) with ⟨c, cs, hc⟩
    rw [hc] at h
    exact absurd ((List.cons.inj h.symm).1.symm) (natChars_head_not_dash hc)
  · simp only [hz, hw, if_neg, not_false_iff] at h
    have := natChars_injective h
    omega

theorem fixedChars_no_colon {prec : ℕ} {q : ℚ} : (':' : Char) ∉ fixedChars prec q :=
  fixedOfParts_no_colon

/-- The quantized tuple the nearby cache key is really built from:
sign/magnitude of latitude and longitude at six decimals, of the radius at
zero decimals, plus the limit. -/
def quantKey (lat lon radius : ℚ) (limit : ℤ) :
    (Bool × ℕ) × (Bool × ℕ) × (Bool × ℕ) × ℤ :=
  (quantFixed 6 lat, quantFixed 6 lon, quantFixed 0 radius, limit)

/-- C8 (amended to quantized queries): key derivation is deterministic,
and two queries share a key exactly when their quantized tuples coincide —
so queries distinguishable after quantization get distinct keys, while
queries that differ only below the quantization step collide. -/
theorem generateNearbyKey_inj_iff_quantized (lat lon radius : ℚ) (limit : ℤ)
    (lat2 lon2 radius2 : ℚ) (limit2 : ℤ) :
    generateNearbyKey lat lon radius limit = generateNearbyKey lat2 lon2 radius2 limit2 ↔
      quantKey lat lon radius limit = quantKey lat2 lon2 radius2 limit2 := by
  constructor
  · intro h
    unfold generateNearbyKey at h
    have h1 := List.append_cancel_left h
    obtain ⟨hlat, h2⟩ := append_sep_inj fixedChars_no_colon fixedChars_no_colon h1
    obtain ⟨hlon, h3⟩ := append_sep_inj fixedChars_no_colon fixedChars_no_colon h2
    obtain ⟨hrad, h4⟩ := append_sep_inj fixedChars_no_colon fixedChars_no_colon h3
    unfold fixedChars at hlat hlon hrad
    obtain ⟨ha1, ha2⟩ := fixedOfParts_inj hlat
    obtain ⟨hb1, hb2⟩ := fixedOfParts_inj hlon
    obtain ⟨hc1, hc2⟩ := fixedOfParts_inj hrad
    have hl := intChars_inj h4
    unfold quantKey
    rw [hl]
    have e1 : quantFixed 6 lat = quantFixed 6 lat2 := Prod.ext ha1 ha2
    have e2 : quantFixed 6 lon = quantFixed 6 lon2 := Prod.ext hb1 hb2
    have e3 : quantFixed 0 radius = quantFixed 0 radius2 := Prod.ext hc1 hc2
    rw [e1, e2, e3]
  · intro h
    simp only [quantKey, Prod.mk.injEq] at h
    obtain ⟨e1, e2, e3, e4⟩ := h
    unfold generateNearbyKey fixedChars
    rw [e1, e2, e3, e4]

/-- C8 counterexample: the radius is formatted with `%.0f`, so the
distinguishable radii `100` and `100.25` (with identical remaining
components) quantize alike and produce the very same cache key. -/
theorem generateNearbyKey_quantization_collision :
    (100 : ℚ) ≠ 401 / 4 ∧
      generateNearbyKey 0 0 100 5 = generateNearbyKey 0 0 (401 / 4) 5 := by
  refine ⟨by norm_num, ?_⟩
  unfold generateNearbyKey fixedChars
  have h : quantFixed 0 (100 : ℚ) = quantFixed 0 (401 / 4 : ℚ) := by
    unfold quantFixed rne
    have habs : |(401 : ℚ) / 4| = 401 / 4 := abs_of_pos (by norm_num)
    have hfr : Int.fract ((401 : ℚ) / 4) = 1 / 4 := by
      unfold Int.fract
      norm_num
    norm_num [habs, hfr]
  rw [h]

namespace Matching

/-- Embeds the matching service's `domain.Location` (a GeoJSON point with
exactly two coordinates). -/
structure Location where
  type : String
  coordinates : List ℚ
deriving DecidableEq

/-- Embeds the matching service's `domain.Driver`. -/
structure Driver where
  id : String
deriving DecidableEq

/-- Embeds `domain.DriverDistancePair`: a candidate driver with its
distance in meters as reported by the location service. -/
structure DriverDistancePair where
  driver : Driver
  distance : ℝ

/-- Embeds `domain.Rider`. -/
structure Rider where
  id : String
  location : Location

/-- Embeds `domain.MatchResult`. -/
structure MatchResult where
  riderID : String
  driverID : String
  distance : ℝ

/-- Embeds Go `math.Round`: round to nearest, ties away from zero. -/
noncomputable def mathRound (x : ℝ) : ℝ :=
  if x < 0 then -((⌊-x + 1 / 2⌋ : ℤ) : ℝ) else ((⌊x + 1 / 2⌋ : ℤ) : ℝ)

/-- Embeds `MatchingService.MatchRiderToDriver`
(the-matching-service/internal/application): fetch ranked candidates from
the driver-location client `find`; an empty list is the distinct
`no drivers found` outcome; otherwise pick the head and round its distance
to two decimals. -/
noncomputable def MatchRiderToDriver
    (find : Location → ℚ → Except String (List DriverDistancePair))
    (rider : Rider) (radius : ℚ) : Except String MatchResult :=
  match find rider.location radius with
  | .error e => .error e
  | .ok [] => .error "no drivers found"
  | .ok (nearest :: _) =>
      .ok { riderID := rider.id
            driverID := nearest.driver.id
            distance := mathRound (nearest.distance * 100) / 100 }

/-- Embeds the status selection of `MatchHandler.Match`
(the-matching-service/internal/adapter/http/handler.go): the
`no drivers found` error maps to 404, any other error to 500, success to
200. -/
noncomputable def matchHTTPStatus (res : Except String MatchResult) : ℕ :=
  match res with
  | .error e => if e = "no drivers found" then 404 else 500
  | .ok _ => 200

/-- C2: when the upstream lookup succeeds, the match fails with the
distinct `no drivers found` outcome (surfaced as 404, not a generic 500)
exactly when the candidate list is empty, and otherwise returns the head
of the list with its distance rounded to two decimal places. -/
theorem matchRiderToDriver_head_or_404
    (find : Location → ℚ → Except String (List DriverDistancePair))
    (rider : Rider) (radius : ℚ) (l : List DriverDistancePair)
    (h : find rider.location radius = .ok l) :
    ((MatchRiderToDriver find rider radius = .error "no drivers found") ↔ l = [])
    ∧ (∀ d rest, l = d :: rest →
        MatchRiderToDriver find rider radius =
          .ok ⟨rider.id, d.driver.id, mathRound (d.distance * 100) / 100⟩)
    ∧ (matchHTTPStatus (MatchRiderToDriver find rider radius) = 404 ↔ l = []) := by
  cases l with
  | nil =>
      refine ⟨by simp [MatchRiderToDriver, h], ?_, ?_⟩
      · intro d rest hd
        cases hd
      · simp [MatchRiderToDriver, h, matchHTTPStatus]
  | cons d rest =>
      refine ⟨by simp [MatchRiderToDriver, h], ?_, ?_⟩
      · intro d' rest' hd
        rw [hd] at h
        simp [MatchRiderToDriver, h]
      · simp [MatchRiderToDriver, h, matchHTTPStatus]

/-- A location client stub that always returns one candidate 100 meters
away. -/
def oneCandidateFind : Location → ℚ → Except String (List DriverDistancePair) :=
  fun _ _ => .ok [⟨⟨"driver-1"⟩, 100⟩]

/-- Witness for C2: with a concrete one-element candidate list the match
returns the head, and with a concrete empty list the outcome is the 404
`no drivers found`. -/
theorem matchRiderToDriver_head_or_404_witness :
    MatchRiderToDriver oneCandidateFind ⟨"user-1", ⟨"Point", [1, 2]⟩⟩ 500 =
        .ok ⟨"user-1", "driver-1", mathRound ((100 : ℝ) * 100) / 100⟩
    ∧ matchHTTPStatus (MatchRiderToDriver (fun _ _ => .ok []) ⟨"user-1", ⟨"Point", [1, 2]⟩⟩ 500) =
        404 :=
  ⟨(matchRiderToDriver_head_or_404 oneCandidateFind ⟨"user-1", ⟨"Point", [1, 2]⟩⟩ 500
      [⟨⟨"driver-1"⟩, 100⟩] rfl).2.1 ⟨⟨"driver-1"⟩, 100⟩ [] rfl,
    ((matchRiderToDriver_head_or_404 (fun _ _ => .ok []) ⟨"user-1", ⟨"Point", [1, 2]⟩⟩ 500
      [] rfl).2.2).2 rfl⟩

/-- The parsed `Data` field of the location service's response envelope:
either a well-formed object whose `drivers` array decodes, or anything
else (both malformed branches of the Go type assertions collapse here). -/
inductive DataField where
  | drivers (l : List DriverDistancePair)
  | invalid

/-- Embeds `domain.DriverLocationServiceResponse`: the decoded response
envelope with its explicit `success` indicator. -/
structure ServiceResponse where
  success : Bool
  data : DataField
  err : String
  message : String

/-- The transport-level outcome of the `POST /api/v1/drivers/search` call
made inside the circuit breaker: a transport failure, or a response with
its HTTP status and (possibly undecodable) body. -/
inductive HTTPOutcome where
  | transportFailure (e : String)
  | response (status : ℕ) (body : Except String ServiceResponse)

/-- Embeds `DriverLocationClient.FindNearbyDrivers` after the request has
been issued: non-200 statuses and undecodable bodies are failures, a
decoded body with `success = false` is surfaced as an error, and otherwise
the `drivers` payload is extracted (or its malformed shape reported). -/
def FindNearbyDrivers (out : HTTPOutcome) : Except String (List DriverDistancePair) :=
  match out with
  | .transportFailure e => .error e
  | .response status body =>
      if status ≠ 200 then .error "unexpected status"
      else
        match body with
        | .error e => .error e
        | .ok resp =>
            if !resp.success then
              .error ("driver location service error: " ++ resp.err ++ " - " ++ resp.message)
            else
              match resp.data with
              | .drivers l => .ok l
              | .invalid => .error "invalid response data format from driver location service"

/-- C7: an HTTP 200 response whose decoded body carries `success = false`
makes `FindNearbyDrivers` return an error — never a driver list — with no
HTTP error status required. -/
theorem findNearbyDrivers_body_failure (resp : ServiceResponse)
    (h : resp.success = false) :
    FindNearbyDrivers (.response 200 (.ok resp)) =
      .error ("driver location service error: " ++ resp.err ++ " - " ++ resp.message)
    ∧ ∀ l, FindNearbyDrivers (.response 200 (.ok resp)) ≠ .ok l := by
  constructor
  · simp [FindNearbyDrivers, h]
  · intro l
    simp [FindNearbyDrivers, h]

/-- Witness for C7 at a concrete failing envelope. -/
theorem findNearbyDrivers_body_failure_witness :
    FindNearbyDrivers (.response 200 (.ok ⟨false, .drivers [], "search failed", "boom"⟩)) =
      .error ("driver location service error: " ++ "search failed" ++ " - " ++ "boom") :=
  (findNearbyDrivers_body_failure ⟨false, .drivers [], "search failed", "boom"⟩ rfl).1

end Matching

end DLS
